import Mathlib

/-!
Verification development for the session lifecycle and persistence engine of
the azor-chatdog chat client (src/session/chat_session.py,
src/session/session_manager.py, src/files/session_files.py).

The Python code is shallowly embedded: the file store (a directory of JSON
files) becomes an explicit `Disk` value threaded through every operation,
I/O exceptions are injected through an explicit `Option String` parameter
(`none` = the write succeeds, `some e` = the write raises and the function
returns the error string, mirroring the try/except blocks), and the external
generation backend is an oracle parameter: each `send_message` step carries
the response text and the full post-send history that the backend handle
reports (the backend's history is the source of truth and the code re-fetches
it after every mutating call), and title generation is an oracle from the
titling prompt to `Option String` (`none` = the stateless call raises).
-/

/-- One history entry.  In the Python code an entry is the dictionary
`{"role": r, "parts": [{"text": t}, ...]}`; we keep the role and the list of
part texts, so `entry["parts"][0]["text"]` becomes `e.parts.head?` (the
IndexError on an empty parts list becomes `none`). -/
structure Entry where
  role : String
  parts : List String
deriving DecidableEq

/-- The JSON object stored in a session file.  `save_session_history` always
writes all five keys; `load_session_history` and `list_sessions` read keys
with `data.get(...)`, hence every field is optional here. -/
structure RecordData where
  session_id : Option String
  title : Option String
  model : Option String
  system_prompt : Option String
  history : Option (List Entry)
deriving DecidableEq

/-! ### Python string primitives

The Python string methods the engine uses (`strip`, `endswith`, `replace`,
negative indexing and slicing) are modelled as structurally recursive
functions over the character list of the string, so that concrete instances
evaluate by kernel reduction. -/

/-- Python `str.strip()`: remove leading and trailing whitespace. -/
def py_strip (s : String) : String :=
  ⟨(((s.data.dropWhile Char.isWhitespace).reverse).dropWhile Char.isWhitespace).reverse⟩

/-- Python `str.endswith(suffix)`. -/
def py_endswith (s suffix : String) : Bool :=
  suffix.data.isSuffixOf s.data

/-- Worker for `py_replace`: replaces non-overlapping occurrences of `pat`
left to right; `fuel` dominates the length of the remaining input so the
recursion is structural. -/
def replace_all_go (pat repl : List Char) : Nat → List Char → List Char
  | _, [] => []
  | 0, s => s
  | fuel + 1, c :: rest =>
    if pat.isPrefixOf (c :: rest) ∧ pat ≠ [] then
      repl ++ replace_all_go pat repl fuel (rest.drop (pat.length - 1))
    else
      c :: replace_all_go pat repl fuel rest

/-- Python `str.replace(pat, repl)`: replace every non-overlapping
occurrence of `pat`, scanning left to right. -/
def py_replace (s pat repl : String) : String :=
  ⟨replace_all_go pat.data repl.data s.data.length s.data⟩

/-- Content of a file in the session directory: either a parsable JSON
record, or bytes on which `json.load` raises. -/
inductive FileContent where
  | record (r : RecordData)
  | corrupt
deriving DecidableEq

def FileContent.isRecord : FileContent → Bool
  | .record _ => true
  | .corrupt => false

/-- A file in the session log directory (`LOG_DIR`): its name, its content
and its modification time (`os.path.getmtime`). -/
structure DiskFile where
  name : String
  content : FileContent
  mtime : Nat
deriving DecidableEq

/-- The session log directory as a list of files. -/
abbrev Disk := List DiskFile

/-- Lookup of a file by name (`os.path.exists` / `open`). -/
def findFile (d : Disk) (name : String) : Option DiskFile :=
  d.find? (fun f => f.name == name)

/-- `open(path, "w")` + `json.dump`: overwrite the file of that name if it
exists, create it otherwise. -/
def writeFile (d : Disk) (name : String) (c : FileContent) (mtime : Nat) : Disk :=
  d.filter (fun f => f.name != name) ++ [⟨name, c, mtime⟩]

/-- `_get_session_path`: the session file is named `{session_id}.json`
(we drop the constant directory prefix). -/
def session_path (session_id : String) : String :=
  session_id ++ ".json"

/-- Result of `save_session_history`: the updated directory plus the Python
return value `(success, error_message)`. -/
structure SaveOut where
  disk : Disk
  ok : Bool
  err : Option String
deriving DecidableEq

/-- `session_files.save_session_history`: serializes the full record
`{session_id, title, model, system_prompt, history}` to `{session_id}.json`,
overwriting any existing file.  `ioErr` injects the exception caught by the
surrounding try/except (`some e` = the write raises, nothing is written and
`(False, str(e))` is returned). -/
def save_session_history (d : Disk) (ioErr : Option String) (session_id : String)
    (history : List Entry) (system_prompt : String) (model_name : String)
    (title : Option String) (mtime : Nat) : SaveOut :=
  match ioErr with
  | some e => ⟨d, false, some e⟩
  | none =>
    let data : RecordData :=
      ⟨some session_id, title, some model_name, some system_prompt, some history⟩
    ⟨writeFile d (session_path session_id) (.record data) mtime, true, none⟩

/-- Python return value of `load_session_history`:
`(history, title, error_message)`. -/
structure LoadResult where
  history : Option (List Entry)
  title : Option String
  err : Option String
deriving DecidableEq

/-- `session_files.load_session_history`: not-found error when the file does
not exist, corrupted-file error when `json.load` raises, otherwise
`(data.get("history", []), data.get("title"), None)`. -/
def load_session_history (d : Disk) (session_id : String) : LoadResult :=
  match findFile d (session_path session_id) with
  | none => ⟨none, none, some ("Session file not found: " ++ session_id)⟩
  | some f =>
    match f.content with
    | .corrupt => ⟨none, none, some ("Corrupted session file: " ++ session_id)⟩
    | .record data => ⟨some (data.history.getD []), data.title, none⟩

/-- One element of the list returned by `list_sessions`. -/
structure SessionInfo where
  id : String
  title : String
  model : String
  messages_count : Nat
  last_activity : Nat
deriving DecidableEq

/-- `session_files.list_sessions`: scans the directory, keeps files whose
name ends in `.json`, parses each one and silently skips any file whose
parse raises (the bare `except: continue`); never fails as a whole.  The
loop-with-append becomes a `filterMap`. -/
def list_sessions (d : Disk) : List SessionInfo :=
  d.filterMap (fun f =>
    if py_endswith f.name ".json" then
      match f.content with
      | .record data =>
        some ⟨data.session_id.getD (py_replace f.name ".json" ""),
              data.title.getD "Untitled Session",
              data.model.getD "Unknown",
              (data.history.getD []).length,
              f.mtime⟩
      | .corrupt => none
    else none)

/-- `session_files.remove_session_file` is not needed by the claims; the
claims under verification never call it. -/
def remove_session_file (d : Disk) (session_id : String) : Disk :=
  d.filter (fun f => f.name != session_path session_id)

/-! ## ChatSession (src/session/chat_session.py)

The session owns the backend handle (`_llm_chat_session`).  The handle is
modelled by the reconciled `history` field: the code re-fetches
`get_history()` from the handle before every read or persist, and every
history mutation immediately reseeds the handle, so the single field holds
the reconciled value at every operation boundary.  The outcome of a backend
`send_message` call (the response text and the handle's post-send history)
is supplied as an oracle value. -/

/-- `ChatSession.DEFAULT_TITLE`. -/
def DEFAULT_TITLE : String := "New Session"

/-- In-memory state of a `ChatSession`: id, title and the (reconciled)
history, plus the system prompt of its assistant and the model name of its
LLM client (both fixed at construction and used when persisting). -/
structure ChatSession where
  session_id : String
  title : String
  history : List Entry
  system_prompt : String
  model_name : String
deriving DecidableEq

/-- `ChatSession.__init__`: `self._history = history or []` and
`self.title = title or self.DEFAULT_TITLE` (Python truthiness: a missing or
empty title falls back to the sentinel, a missing history to `[]`). -/
def chat_session_init (session_id : String) (history : Option (List Entry))
    (title : Option String) (system_prompt : String) (model_name : String) : ChatSession :=
  { session_id := session_id
    history := history.getD []
    title :=
      match title with
      | none => DEFAULT_TITLE
      | some t => if t = "" then DEFAULT_TITLE else t
    system_prompt := system_prompt
    model_name := model_name }

/-- `ChatSession.is_empty`: true iff the history has fewer than 2 entries. -/
def ChatSession.is_empty (s : ChatSession) : Bool :=
  s.history.length < 2

/-- `ChatSession.save_to_file`: re-sync history from the handle (a no-op on
the reconciled state), then delegate to `save_session_history` with the
session's title.  Returns the `(success, error)` pair together with the
updated directory. -/
def ChatSession.save_to_file (s : ChatSession) (d : Disk) (ioErr : Option String)
    (mtime : Nat) : SaveOut :=
  save_session_history d ioErr s.session_id s.history s.system_prompt
    s.model_name (some s.title) mtime

/-- Result of `ChatSession.rename`: new session state, new directory, and
the boolean the method returns. -/
structure RenameOut where
  session : ChatSession
  disk : Disk
  ok : Bool
deriving DecidableEq

/-- `ChatSession.rename`: set the title, save, return whether the save
succeeded (the title assignment happens before and independently of the
save). -/
def ChatSession.rename (s : ChatSession) (d : Disk) (ioErr : Option String)
    (mtime : Nat) (new_title : String) : RenameOut :=
  let s' := { s with title := new_title }
  let out := s'.save_to_file d ioErr mtime
  ⟨s', out.disk, out.ok⟩

/-- The tuple `('.', '!', '?', ',')` the trailing character is tested
against. -/
def TRAILING_PUNCT : List Char := ['.', '!', '?', ',']

/-- The cleaning steps of `_generate_title_from_history` (source lines
304-315): `strip()`; when the stripped text is non-empty and its last
character is one of `. ! ? ,`, replace it by `stripped[:-1].strip()`; return
`None` when the final result is empty. -/
def clean_generated_title (raw : String) : Option String :=
  let cleaned := py_strip raw
  let cleaned :=
    match cleaned.data.getLast? with
    | some c => if TRAILING_PUNCT.contains c then py_strip ⟨cleaned.data.dropLast⟩ else cleaned
    | none => cleaned
  if cleaned = "" then none else some cleaned

/-- The fixed instructional prompt built by `_generate_title_from_history`
from the first user message and the first assistant response. -/
def titling_prompt (first_user_message first_assistant_response : String) : String :=
  "Na podstawie poniższego dialogu, wygeneruj krótki, jednozdaniowy tytuł wątku. " ++
  "Tytuł musi być bez znaków interpunkcyjnych i oparty na treści odpowiedzi asystenta. " ++
  "Dialog:\n" ++
  "UŻYTKOWNIK: " ++ first_user_message ++ "\n" ++
  "ASYSTENT: " ++ first_assistant_response

/-- `ChatSession._generate_title_from_history`.  `titleGen` is the stateless
backend call `generate_title_text` as an oracle from the prompt to its
result (`none` = the call raises, caught by the surrounding try/except).
Returns `None` unless the history has exactly 2 entries, both texts can be
extracted, the call succeeds and the cleaned result is non-empty. -/
def generate_title_from_history (history : List Entry)
    (titleGen : String → Option String) : Option String :=
  if history.length ≠ 2 then none
  else
    match history with
    | [e0, e1] =>
      match e0.parts.head?, e1.parts.head? with
      | some first_user_message, some first_assistant_response =>
        match titleGen (titling_prompt first_user_message first_assistant_response) with
        | none => none
        | some title_response => clean_generated_title title_response
      | _, _ => none
    | _ => none

/-- Observable events of an operation, used to state ordering and
exactly-once properties: a `save_to_file` attempt on a session, a load
attempt of a record, the auto-title branch of `send_message` being entered
(with whether derivation succeeded), and the WAL append. -/
inductive Event where
  | saveAttempt (session_id : String)
  | loadAttempt (session_id : String)
  | autoTitleFire (session_id : String) (ok : Bool)
  | walAppend (session_id : String)
deriving DecidableEq

def Event.isFire : Event → Bool
  | .autoTitleFire _ _ => true
  | _ => false

/-- Backend outcome of one `handle.send_message` call: the response text and
the full history the handle reports afterwards (the code overwrites
`self._history` with `get_history()` right after the call). -/
structure SendResult where
  responseText : String
  newHistory : List Entry
deriving DecidableEq

/-- Result of `ChatSession.send_message`. -/
structure SendOut where
  session : ChatSession
  disk : Disk
  events : List Event
  response : String

/-- `ChatSession.send_message`: send, re-sync history from the handle; then,
if the title still equals the sentinel and the synced history has exactly 2
entries, attempt auto-title derivation and persist immediately on success;
finally append one WAL entry (its failure is swallowed and not modelled
beyond the event). -/
def ChatSession.send_message (s : ChatSession) (d : Disk) (text : String)
    (sr : SendResult) (titleGen : String → Option String)
    (saveErr : Option String) (mtime : Nat) : SendOut :=
  let s1 := { s with history := sr.newHistory }
  if s1.title = DEFAULT_TITLE ∧ s1.history.length = 2 then
    match generate_title_from_history s1.history titleGen with
    | some new_title =>
      let s2 := { s1 with title := new_title }
      let out := s2.save_to_file d saveErr mtime
      ⟨s2, out.disk,
        [.autoTitleFire s.session_id true, .walAppend s.session_id],
        sr.responseText⟩
    | none =>
      ⟨s1, d,
        [.autoTitleFire s.session_id false, .walAppend s.session_id],
        sr.responseText⟩
  else
    ⟨s1, d, [.walAppend s.session_id], sr.responseText⟩

/-- `ChatSession.get_history`: re-sync from the handle and return the
history (the identity on the reconciled state). -/
def ChatSession.get_history (s : ChatSession) : List Entry :=
  s.history

/-- `ChatSession.clear_history`: empty the history, reseed the handle with
it, persist. -/
def ChatSession.clear_history (s : ChatSession) (d : Disk) (ioErr : Option String)
    (mtime : Nat) : ChatSession × Disk :=
  let s' := { s with history := [] }
  let out := s'.save_to_file d ioErr mtime
  (s', out.disk)

/-- Result of `ChatSession.pop_last_exchange`. -/
structure PopOut where
  session : ChatSession
  disk : Disk
  ok : Bool

/-- `ChatSession.pop_last_exchange`: sync history; if it has fewer than 2
entries return `False` with no mutation; otherwise drop the trailing two
entries (`current_history[:-2]`), reseed the handle with the truncated
history, persist, return `True`. -/
def ChatSession.pop_last_exchange (s : ChatSession) (d : Disk)
    (ioErr : Option String) (mtime : Nat) : PopOut :=
  let current_history := s.get_history
  if current_history.length < 2 then ⟨s, d, false⟩
  else
    let s' := { s with history := current_history.take (current_history.length - 2) }
    let out := s'.save_to_file d ioErr mtime
    ⟨s', out.disk, true⟩

/-! ## Operation traces on one session

For the exactly-once auto-title property we need arbitrary sequences of the
session-mutating operations, each carrying its backend / I/O oracle data. -/

/-- One operation on a session, with its oracle data. -/
inductive Op where
  | send (text : String) (sr : SendResult) (titleGen : String → Option String)
      (saveErr : Option String) (mtime : Nat)
  | pop (saveErr : Option String) (mtime : Nat)
  | clear (saveErr : Option String) (mtime : Nat)
  | renameOp (new_title : String) (saveErr : Option String) (mtime : Nat)
  | saveOp (saveErr : Option String) (mtime : Nat)

def Op.isSend : Op → Bool
  | .send _ _ _ _ _ => true
  | _ => false

/-- Whether the operation is a rename to the default sentinel title (the
only operation that can move a title back to the sentinel). -/
def Op.renamesToDefault : Op → Bool
  | .renameOp t _ _ => t == DEFAULT_TITLE
  | _ => false

/-- Result of one step or of a run. -/
structure StepOut where
  session : ChatSession
  disk : Disk
  events : List Event

/-- One operation applied to a session. -/
def step_session (s : ChatSession) (d : Disk) : Op → StepOut
  | .send text sr titleGen saveErr mtime =>
    let out := s.send_message d text sr titleGen saveErr mtime
    ⟨out.session, out.disk, out.events⟩
  | .pop saveErr mtime =>
    let out := s.pop_last_exchange d saveErr mtime
    ⟨out.session, out.disk, []⟩
  | .clear saveErr mtime =>
    let (s', d') := s.clear_history d saveErr mtime
    ⟨s', d', []⟩
  | .renameOp t saveErr mtime =>
    let out := s.rename d saveErr mtime t
    ⟨out.session, out.disk, []⟩
  | .saveOp saveErr mtime =>
    let out := s.save_to_file d saveErr mtime
    ⟨s, out.disk, []⟩

/-- A sequence of operations applied in order, events concatenated. -/
def run_ops (s : ChatSession) (d : Disk) : List Op → StepOut
  | [] => ⟨s, d, []⟩
  | op :: ops =>
    let st := step_session s d op
    let rest := run_ops st.session st.disk ops
    ⟨rest.session, rest.disk, st.events ++ rest.events⟩

/-! ## SessionManager (src/session/session_manager.py) -/

/-- Manager state: the single mutable cell `_current_session`. -/
structure SessionManager where
  current : Option ChatSession
deriving DecidableEq

/-- `ChatSession.load_from_file`: load the record, return the error on
failure, otherwise construct a session from the stored history and title.
`system_prompt` and `model_name` come from the assistant configuration and
the environment-selected LLM client, passed in by the caller. -/
def load_from_file (d : Disk) (session_id : String)
    (system_prompt model_name : String) : Option ChatSession × Option String :=
  let r := load_session_history d session_id
  match r.err with
  | some e => (none, some e)
  | none =>
    (some (chat_session_init session_id r.history r.title system_prompt model_name), none)

/-- Result of `SessionManager.switch_to_session`: the new manager state and
directory, plus the Python return tuple
`(new_session, save_attempted, previous_session_id, load_successful,
load_error, has_history)`, plus the event trace. -/
structure SwitchOut where
  manager : SessionManager
  disk : Disk
  new_session : Option ChatSession
  save_attempted : Bool
  previous_session_id : Option String
  load_successful : Bool
  load_error : Option String
  has_history : Bool
  events : List Event

/-- `SessionManager.switch_to_session`: if a session is active, save it
first (unconditionally, its result discarded); then attempt the load; on
load failure return the error and leave `_current_session` untouched; on
success install the loaded session.  `saveErr` is the injected I/O outcome
of the save step; `system_prompt`/`model_name` configure the loaded
session. -/
def switch_to_session (m : SessionManager) (d : Disk) (saveErr : Option String)
    (mtime : Nat) (system_prompt model_name : String) (session_id : String) : SwitchOut :=
  let pre :=
    match m.current with
    | none => (false, (none : Option String), d, ([] : List Event))
    | some s =>
      (true, some s.session_id, (s.save_to_file d saveErr mtime).disk,
        [Event.saveAttempt s.session_id])
  match pre with
  | (save_attempted, previous_session_id, d1, ev1) =>
    let events := ev1 ++ [Event.loadAttempt session_id]
    match load_from_file d1 session_id system_prompt model_name with
    | (some new_session, _) =>
      ⟨⟨some new_session⟩, d1, some new_session, save_attempted, previous_session_id,
        true, none, !new_session.is_empty, events⟩
    | (none, err) =>
      ⟨m, d1, none, save_attempted, previous_session_id, false, err, false, events⟩

/-- Result of `SessionManager.cleanup_and_save`. -/
structure CleanupOut where
  disk : Disk
  events : List Event

/-- `SessionManager.cleanup_and_save`: nothing when no session is active;
nothing (only a console message) when the active session is empty;
otherwise save it. -/
def cleanup_and_save (m : SessionManager) (d : Disk) (saveErr : Option String)
    (mtime : Nat) : CleanupOut :=
  match m.current with
  | none => ⟨d, []⟩
  | some s =>
    if s.is_empty then ⟨d, []⟩
    else ⟨(s.save_to_file d saveErr mtime).disk, [.saveAttempt s.session_id]⟩

/-- Result of `SessionManager.rename_current_session`. -/
structure ManagerRenameOut where
  manager : SessionManager
  disk : Disk
  ok : Bool
  err : Option String

/-- `SessionManager.rename_current_session`: error when no session is
active; otherwise delegate to `ChatSession.rename` (which mutates the
session held by the manager) and wrap the failure message. -/
def rename_current_session (m : SessionManager) (d : Disk) (saveErr : Option String)
    (mtime : Nat) (new_title : String) : ManagerRenameOut :=
  match m.current with
  | none => ⟨m, d, false, some "Brak aktywnej sesji. Nie można zmienić tytułu."⟩
  | some s =>
    let out := s.rename d saveErr mtime new_title
    if out.ok then ⟨⟨some out.session⟩, out.disk, true, none⟩
    else
      ⟨⟨some out.session⟩, out.disk, false,
        some ("Błąd podczas próby zapisu sesji '" ++ s.session_id ++ "' po zmianie tytułu")⟩

/-! ## Spec-side definition for the auto-title cleaning step

`clean_title_per_spec` is written from the words of the specification
("Strip surrounding whitespace and a single trailing punctuation character
if present; if the cleaned result is empty, leave the title as the default
sentinel"), to be compared with `clean_generated_title`, which is
translated from the source. -/

/-- The spec's cleaning description: strip surrounding whitespace; if the
stripped text ends in a punctuation character, remove that single trailing
character (stripping the whitespace this uncovers); yield nothing when the
cleaned result is empty. -/
def clean_title_per_spec (raw : String) : Option String :=
  let stripped := py_strip raw
  let without_punct :=
    match stripped.data.getLast? with
    | some c =>
      if c = '.' ∨ c = '!' ∨ c = '?' ∨ c = ',' then py_strip ⟨stripped.data.dropLast⟩
      else stripped
    | none => stripped
  if without_punct = "" then none else some without_punct

/-! ## Concrete fixtures

Small concrete states used by witnesses and counterexamples. -/

def entry_u1 : Entry := ⟨"user", ["hi"]⟩
def entry_a1 : Entry := ⟨"model", ["hello"]⟩
def entry_u2 : Entry := ⟨"user", ["more"]⟩
def entry_a2 : Entry := ⟨"model", ["words"]⟩

/-- A session with two complete exchanges and a non-default title. -/
def sample_session : ChatSession :=
  ⟨"s1", "Rozmowa o psach", [entry_u1, entry_a1, entry_u2, entry_a2],
    "You are Azor", "gemini-2.5-flash"⟩

/-- A freshly created session: empty history, sentinel title. -/
def fresh_session : ChatSession :=
  ⟨"s1", DEFAULT_TITLE, [], "You are Azor", "gemini-2.5-flash"⟩

/-- A well-formed persisted record, as `save_session_history` writes it. -/
def sample_record : RecordData :=
  ⟨some "s1", some "Rozmowa o psach", some "gemini-2.5-flash",
    some "You are Azor", some [entry_u1, entry_a1]⟩

/-- A send whose backend reports a first completed exchange and whose title
generation call raises (the oracle returns `none` on every prompt). -/
def cex_send1 : Op := .send "hi" ⟨"hello", [entry_u1, entry_a1]⟩ (fun _ => none) none 0

/-- A second send after the history was emptied: the backend again reports
exactly one completed exchange, title generation fails again. -/
def cex_send2 : Op := .send "more" ⟨"words", [entry_u2, entry_a2]⟩ (fun _ => none) none 0

/-- The trace refuting the exactly-once auto-title claim: first exchange
(fire, generation fails), pop the exchange (history back to 0), new first
exchange (fires again). -/
def cex_ops : List Op := [cex_send1, .pop none 0, cex_send2]

/-! ## Helper lemmas -/

lemma append_suffix_ne (a b suf : String) (h : a ≠ b) : a ++ suf ≠ b ++ suf := by
  intro he
  apply h
  have hd : (a ++ suf).data = (b ++ suf).data := congrArg String.data he
  rw [String.data_append, String.data_append] at hd
  exact String.ext (List.append_cancel_right hd)

lemma findFile_filter_ne (d : Disk) (n n' : String) (h : n' ≠ n) :
    findFile (d.filter (fun f => f.name != n)) n' = findFile d n' := by
  induction d with
  | nil => rfl
  | cons f fs ih =>
    unfold findFile at ih ⊢
    cases hb : (f.name != n) with
    | false =>
      have hf : f.name = n := by simpa using hb
      have hg : (f.name == n') = false := by
        rw [hf]
        exact beq_eq_false_iff_ne.mpr (Ne.symm h)
      simp only [List.filter, hb, List.find?, hg]
      exact ih
    | true =>
      cases hg : (f.name == n') with
      | true => simp only [List.filter, hb, List.find?, hg]
      | false =>
        simp only [List.filter, hb, List.find?, hg]
        exact ih

lemma findFile_writeFile_self (d : Disk) (n : String) (c : FileContent) (mt : Nat) :
    findFile (writeFile d n c mt) n = some ⟨n, c, mt⟩ := by
  unfold writeFile findFile
  induction d with
  | nil => simp [List.find?]
  | cons f fs ih =>
    cases hb : (f.name != n) with
    | false =>
      simp only [List.filter, hb]
      exact ih
    | true =>
      have hf : ¬ f.name = n := by simpa using hb
      have hg : (f.name == n) = false := beq_eq_false_iff_ne.mpr hf
      simp only [List.filter, hb, List.cons_append, List.find?, hg]
      exact ih

lemma findFile_writeFile_other (d : Disk) (n n' : String) (c : FileContent) (mt : Nat)
    (h : n' ≠ n) : findFile (writeFile d n c mt) n' = findFile d n' := by
  have h2 : (List.find? (fun f => f.name == n') ([⟨n, c, mt⟩] : Disk)) = none := by
    have hg : ((n : String) == n') = false := beq_eq_false_iff_ne.mpr (Ne.symm h)
    simp only [List.find?, hg]
  unfold writeFile findFile
  rw [List.find?_append, h2]
  have h3 := findFile_filter_ne d n n' h
  unfold findFile at h3
  rw [Option.or_none, h3]

/-! ## Claim theorems -/

/-- C3: for every directory state, session id, history `h`, system prompt
`p`, model `m` and title `t`, a successful `save_session_history` followed by
`load_session_history` of the same id returns exactly the history `h`, the
title `t` and no error. -/
theorem save_load_round_trip (d : Disk) (sid : String) (h : List Entry)
    (p m t : String) (mtime : Nat) :
    (save_session_history d none sid h p m (some t) mtime).ok = true ∧
    (save_session_history d none sid h p m (some t) mtime).err = none ∧
    load_session_history (save_session_history d none sid h p m (some t) mtime).disk sid =
      ⟨some h, some t, none⟩ := by
  refine ⟨rfl, rfl, ?_⟩
  unfold load_session_history save_session_history
  simp [findFile_writeFile_self]

/-- C10: `save_to_file` writes the persisted record unconditionally — no
check that the history contains a complete exchange — so every session,
including one whose history has 0 or 1 entries, gets a record written for
its id; in particular a `rename` on a fresh session and a `clear_history`
both put a record on disk. -/
theorem save_to_file_unconditional (s : ChatSession) (d : Disk) (mtime : Nat)
    (new_title : String) :
    findFile ((s.save_to_file d none mtime).disk) (session_path s.session_id) =
      some ⟨session_path s.session_id,
        .record ⟨some s.session_id, some s.title, some s.model_name,
          some s.system_prompt, some s.history⟩, mtime⟩ ∧
    (s.save_to_file d none mtime).ok = true ∧
    findFile ((s.rename d none mtime new_title).disk) (session_path s.session_id) =
      some ⟨session_path s.session_id,
        .record ⟨some s.session_id, some new_title, some s.model_name,
          some s.system_prompt, some s.history⟩, mtime⟩ ∧
    findFile ((s.clear_history d none mtime).2) (session_path s.session_id) =
      some ⟨session_path s.session_id,
        .record ⟨some s.session_id, some s.title, some s.model_name,
          some s.system_prompt, some ([] : List Entry)⟩, mtime⟩ := by
  refine ⟨?_, rfl, ?_, ?_⟩ <;>
    simp [ChatSession.save_to_file, ChatSession.rename, ChatSession.clear_history,
      save_session_history, findFile_writeFile_self]

/-- C4: `pop_last_exchange` on a reconciled history of length 0 or 1 returns
`False` and changes nothing; on length `N ≥ 2` it removes exactly the
trailing two entries (the session — and hence the rebuilt backend handle
seeded from it — holds the first `N − 2` entries), persists the truncated
record, and returns `True`. -/
theorem pop_last_exchange_spec (s : ChatSession) (d : Disk) (saveErr : Option String)
    (mtime : Nat) :
    (s.history.length < 2 → s.pop_last_exchange d saveErr mtime = ⟨s, d, false⟩) ∧
    (2 ≤ s.history.length →
      (s.pop_last_exchange d saveErr mtime).ok = true ∧
      (s.pop_last_exchange d saveErr mtime).session.history =
        s.history.take (s.history.length - 2) ∧
      (s.pop_last_exchange d saveErr mtime).session.history.length =
        s.history.length - 2 ∧
      (∃ a b, s.history =
        (s.pop_last_exchange d saveErr mtime).session.history ++ [a, b]) ∧
      findFile ((s.pop_last_exchange d none mtime).disk) (session_path s.session_id) =
        some ⟨session_path s.session_id,
          .record ⟨some s.session_id, some s.title, some s.model_name,
            some s.system_prompt, some (s.history.take (s.history.length - 2))⟩,
          mtime⟩) := by
  constructor
  · intro h
    simp [ChatSession.pop_last_exchange, ChatSession.get_history, h]
  · intro h
    have hlt : ¬ s.history.length < 2 := by omega
    refine ⟨?_, ?_, ?_, ?_, ?_⟩
    · simp [ChatSession.pop_last_exchange, ChatSession.get_history, hlt]
    · simp [ChatSession.pop_last_exchange, ChatSession.get_history, hlt]
    · simp only [ChatSession.pop_last_exchange, ChatSession.get_history, hlt,
        if_false]
      simp [List.length_take]
    · obtain ⟨a, b, hab⟩ := List.length_eq_two.mp
        (show (s.history.drop (s.history.length - 2)).length = 2 by
          simp [List.length_drop]; omega)
      refine ⟨a, b, ?_⟩
      simp only [ChatSession.pop_last_exchange, ChatSession.get_history, hlt,
        if_false]
      rw [← hab, List.take_append_drop]
    · simp [ChatSession.pop_last_exchange, ChatSession.get_history, hlt,
        ChatSession.save_to_file, save_session_history, findFile_writeFile_self]

/-- Witness for C4 at concrete inputs: a 4-entry session pops to 2 entries
with result `True`; a fresh empty session refuses with `False`. -/
theorem pop_last_exchange_spec_witness :
    (sample_session.pop_last_exchange [] none 0).ok = true ∧
    (sample_session.pop_last_exchange [] none 0).session.history.length = 2 ∧
    (fresh_session.pop_last_exchange [] none 0).ok = false := by
  have h2 := (pop_last_exchange_spec sample_session [] none 0).2 (by decide)
  have h1 := (pop_last_exchange_spec fresh_session [] none 0).1 (by decide)
  refine ⟨h2.1, h2.2.2.1.trans (by decide), ?_⟩
  rw [h1]

/-- C5: `cleanup_and_save` writes the current session's record iff a session
is active and non-empty (history length at least 2); with no active session
or an active session of history length 0 or 1, the store is untouched and no
save is attempted. -/
theorem cleanup_and_save_spec (m : SessionManager) (d : Disk) (saveErr : Option String)
    (mtime : Nat) :
    (m.current = none → cleanup_and_save m d saveErr mtime = ⟨d, []⟩) ∧
    (∀ s, m.current = some s → s.history.length < 2 →
      cleanup_and_save m d saveErr mtime = ⟨d, []⟩) ∧
    (∀ s, m.current = some s → 2 ≤ s.history.length →
      (cleanup_and_save m d none mtime).events = [.saveAttempt s.session_id] ∧
      findFile ((cleanup_and_save m d none mtime).disk) (session_path s.session_id) =
        some ⟨session_path s.session_id,
          .record ⟨some s.session_id, some s.title, some s.model_name,
            some s.system_prompt, some s.history⟩, mtime⟩) := by
  refine ⟨?_, ?_, ?_⟩
  · intro h
    simp [cleanup_and_save, h]
  · intro s hs hlen
    have he : s.is_empty = true := by
      simp [ChatSession.is_empty]
      omega
    simp [cleanup_and_save, hs, he]
  · intro s hs hlen
    have he : ¬ s.is_empty = true := by
      simp [ChatSession.is_empty]
      omega
    constructor
    · simp [cleanup_and_save, hs, he]
    · simp [cleanup_and_save, hs, he, ChatSession.save_to_file,
        save_session_history, findFile_writeFile_self]

/-- Witness for C5 at concrete inputs: an empty active session causes no
write; a session with two exchanges is saved. -/
theorem cleanup_and_save_spec_witness :
    cleanup_and_save ⟨some fresh_session⟩ [] none 0 = ⟨[], []⟩ ∧
    (cleanup_and_save ⟨some sample_session⟩ [] none 0).events =
      [.saveAttempt sample_session.session_id] := by
  have h1 := (cleanup_and_save_spec ⟨some fresh_session⟩ [] none 0).2.1
    fresh_session rfl (by decide)
  have h2 := (cleanup_and_save_spec ⟨some sample_session⟩ [] none 0).2.2
    sample_session rfl (by decide)
  exact ⟨h1, h2.1⟩

/-- C9: `rename` sets the in-memory title to the new value, immediately
attempts the persist, and returns whether the persist succeeded; the title
stays at the new value even when the persist fails.  The manager's
`rename_current_session` delegates to it and fails with a no-active-session
message when no session is current. -/
theorem rename_spec (s : ChatSession) (d : Disk) (saveErr : Option String)
    (mtime : Nat) (t : String) :
    ((s.rename d saveErr mtime t).session = { s with title := t }) ∧
    ((s.rename d saveErr mtime t).session.title = t) ∧
    ((s.rename d saveErr mtime t).ok = true ↔ saveErr = none) ∧
    (findFile ((s.rename d none mtime t).disk) (session_path s.session_id) =
      some ⟨session_path s.session_id,
        .record ⟨some s.session_id, some t, some s.model_name,
          some s.system_prompt, some s.history⟩, mtime⟩) ∧
    (∀ e, (s.rename d (some e) mtime t).disk = d) ∧
    (∀ m : SessionManager, m.current = some s →
      (rename_current_session m d saveErr mtime t).manager.current =
        some { s with title := t } ∧
      ((rename_current_session m d saveErr mtime t).ok = true ↔ saveErr = none)) ∧
    (∀ m : SessionManager, m.current = none →
      (rename_current_session m d saveErr mtime t).ok = false ∧
      (rename_current_session m d saveErr mtime t).err =
        some "Brak aktywnej sesji. Nie można zmienić tytułu.") := by
  refine ⟨?_, ?_, ?_, ?_, ?_, ?_, ?_⟩
  · cases saveErr <;>
      simp [ChatSession.rename, ChatSession.save_to_file, save_session_history]
  · cases saveErr <;>
      simp [ChatSession.rename, ChatSession.save_to_file, save_session_history]
  · cases saveErr <;>
      simp [ChatSession.rename, ChatSession.save_to_file, save_session_history]
  · simp [ChatSession.rename, ChatSession.save_to_file, save_session_history,
      findFile_writeFile_self]
  · intro e
    simp [ChatSession.rename, ChatSession.save_to_file, save_session_history]
  · intro m hm
    cases saveErr <;>
      simp [rename_current_session, hm, ChatSession.rename,
        ChatSession.save_to_file, save_session_history]
  · intro m hm
    simp [rename_current_session, hm]

/-- Witness for C9 at concrete inputs: rename with a succeeding and with a
failing persist; manager rename with and without an active session. -/
theorem rename_spec_witness :
    (sample_session.rename [] none 0 "Nowy tytuł").session.title = "Nowy tytuł" ∧
    (sample_session.rename [] none 0 "Nowy tytuł").ok = true ∧
    (sample_session.rename [] (some "disk full") 0 "Nowy tytuł").session.title =
      "Nowy tytuł" ∧
    (sample_session.rename [] (some "disk full") 0 "Nowy tytuł").ok = false ∧
    (rename_current_session ⟨none⟩ [] none 0 "Nowy tytuł").ok = false := by
  have h1 := rename_spec sample_session [] none 0 "Nowy tytuł"
  have h2 := rename_spec sample_session [] (some "disk full") 0 "Nowy tytuł"
  refine ⟨h1.2.1, h1.2.2.1.mpr rfl, h2.2.1, ?_, ?_⟩
  · have hiff := h2.2.2.1
    cases hok : (sample_session.rename [] (some "disk full") 0 "Nowy tytuł").ok
    · rfl
    · exact absurd (hiff.mp hok) (by simp)
  · exact ((rename_spec sample_session [] none 0 "Nowy tytuł").2.2.2.2.2.2
      ⟨none⟩ rfl).1

/-- C7: `list_sessions` never fails as a whole: it returns exactly one entry
per parsable `.json` record and silently skips every file that fails to
parse; over a store with one valid record and one unparsable file it returns
exactly the one entry for the valid record. -/
theorem list_sessions_spec (d : Disk) :
    (list_sessions d).length =
      (d.filter (fun f => py_endswith f.name ".json" && f.content.isRecord)).length ∧
    (∀ (name1 name2 : String) (r : RecordData) (mt1 mt2 : Nat),
      py_endswith name1 ".json" = true →
      list_sessions [⟨name1, .record r, mt1⟩, ⟨name2, .corrupt, mt2⟩] =
        [⟨r.session_id.getD (py_replace name1 ".json" ""),
          r.title.getD "Untitled Session",
          r.model.getD "Unknown",
          (r.history.getD []).length, mt1⟩]) := by
  constructor
  · induction d with
    | nil => rfl
    | cons f fs ih =>
      cases hj : py_endswith f.name ".json"
      · simp only [list_sessions] at ih ⊢
        simp [List.filterMap_cons, List.filter_cons, hj, ih]
      · cases hc : f.content with
        | record r =>
          simp only [list_sessions] at ih ⊢
          simp [List.filterMap_cons, List.filter_cons, hj, hc,
            FileContent.isRecord, ih]
        | corrupt =>
          simp only [list_sessions] at ih ⊢
          simp [List.filterMap_cons, List.filter_cons, hj, hc,
            FileContent.isRecord, ih]
  · intro name1 name2 r mt1 mt2 h1
    cases hj2 : py_endswith name2 ".json" <;>
      simp [list_sessions, List.filterMap_cons, h1, hj2]

/-- Witness for C7: a store holding one valid record file and one corrupt
file lists exactly the valid record. -/
theorem list_sessions_spec_witness :
    list_sessions [⟨"s1.json", .record sample_record, 5⟩, ⟨"bad.json", .corrupt, 7⟩] =
      [⟨"s1", "Rozmowa o psach", "gemini-2.5-flash", 2, 5⟩] := by
  have h := (list_sessions_spec
      [⟨"s1.json", .record sample_record, 5⟩, ⟨"bad.json", .corrupt, 7⟩]).2
    "s1.json" "bad.json" sample_record 5 7 (by decide)
  rw [h]
  decide

/-- C8: the auto-title derivation cleans the generated text exactly as the
spec describes (strip surrounding whitespace, remove at most one trailing
punctuation character); and whenever the stateless call fails or the cleaned
result is empty, derivation yields nothing and `send_message` leaves the
title at the default sentinel. -/
theorem auto_title_cleaning_spec :
    (∀ raw, clean_generated_title raw = clean_title_per_spec raw) ∧
    (∀ raw t, clean_generated_title raw = some t →
      t ≠ "" ∧
      (t = py_strip raw ∨
        ∃ c, (py_strip raw).data.getLast? = some c ∧ c ∈ TRAILING_PUNCT ∧
          t = py_strip ⟨(py_strip raw).data.dropLast⟩)) ∧
    (∀ s d text sr tg saveErr mtime, s.title = DEFAULT_TITLE →
      generate_title_from_history sr.newHistory tg = none →
      (ChatSession.send_message s d text sr tg saveErr mtime).session.title =
        DEFAULT_TITLE) ∧
    (∀ hist (tg : String → Option String), (∀ p, tg p = none) →
      generate_title_from_history hist tg = none) ∧
    (∀ hist (tg : String → Option String),
      (∀ p r, tg p = some r → clean_generated_title r = none) →
      generate_title_from_history hist tg = none) := by
  refine ⟨?_, ?_, ?_, ?_, ?_⟩
  · intro raw
    simp only [clean_generated_title, clean_title_per_spec]
    cases hlast : (py_strip raw).data.getLast? with
    | none => rfl
    | some c =>
      dsimp only
      have hmem : (TRAILING_PUNCT.contains c = true) ↔
          (c = '.' ∨ c = '!' ∨ c = '?' ∨ c = ',') := by
        simp [TRAILING_PUNCT]
      by_cases hc : c = '.' ∨ c = '!' ∨ c = '?' ∨ c = ','
      · rw [if_pos (hmem.mpr hc), if_pos hc]
      · rw [if_neg (fun hb => hc (hmem.mp hb)), if_neg hc]
  · intro raw t ht
    simp only [clean_generated_title] at ht
    cases hlast : (py_strip raw).data.getLast? with
    | none =>
      rw [hlast] at ht
      dsimp only at ht
      by_cases he : py_strip raw = ""
      · rw [if_pos he] at ht
        exact absurd ht (by simp)
      · rw [if_neg he] at ht
        have hts : py_strip raw = t := by
          injection ht
        exact ⟨fun h0 => he (hts.trans h0), Or.inl hts.symm⟩
    | some c =>
      rw [hlast] at ht
      dsimp only at ht
      by_cases hc : TRAILING_PUNCT.contains c = true
      · rw [if_pos hc] at ht
        by_cases he : py_strip ⟨(py_strip raw).data.dropLast⟩ = ""
        · rw [if_pos he] at ht
          exact absurd ht (by simp)
        · rw [if_neg he] at ht
          have hts : py_strip ⟨(py_strip raw).data.dropLast⟩ = t := by
            injection ht
          refine ⟨fun h0 => he (hts.trans h0),
            Or.inr ⟨c, rfl, ?_, hts.symm⟩⟩
          simpa [TRAILING_PUNCT] using hc
      · rw [if_neg hc] at ht
        by_cases he : py_strip raw = ""
        · rw [if_pos he] at ht
          exact absurd ht (by simp)
        · rw [if_neg he] at ht
          have hts : py_strip raw = t := by
            injection ht
          exact ⟨fun h0 => he (hts.trans h0), Or.inl hts.symm⟩
  · intro s d text sr tg saveErr mtime htitle hgen
    unfold ChatSession.send_message
    by_cases hcond : s.title = DEFAULT_TITLE ∧ sr.newHistory.length = 2
    · simp only [hcond, and_self, if_pos, hgen]
    · simp only [if_neg hcond]
      exact htitle
  · intro hist tg htg
    unfold generate_title_from_history
    by_cases hl : hist.length ≠ 2
    · rw [if_pos hl]
    · rw [if_neg hl]
      rcases hist with _ | ⟨e0, _ | ⟨e1, _ | ⟨e2, rest⟩⟩⟩
      · simp at hl
      · simp at hl
      · cases h0 : e0.parts.head? <;> cases h1 : e1.parts.head? <;>
          simp [h0, h1, htg]
      · exfalso
        simp at hl
  · intro hist tg hclean
    unfold generate_title_from_history
    by_cases hl : hist.length ≠ 2
    · rw [if_pos hl]
    · rw [if_neg hl]
      rcases hist with _ | ⟨e0, _ | ⟨e1, _ | ⟨e2, rest⟩⟩⟩
      · simp at hl
      · simp at hl
      · cases h0 : e0.parts.head? with
        | none => simp [h0]
        | some fu =>
          cases h1 : e1.parts.head? with
          | none => simp [h0, h1]
          | some fa =>
            simp only [h0, h1]
            cases htg : tg (titling_prompt fu fa) with
            | none => rfl
            | some r => exact hclean _ _ htg
      · exfalso
        simp at hl

/-- Witness for C8 at concrete inputs: the cleaning agrees with the spec on
a punctuated title, a failing stateless call yields no title, and a
`send_message` whose derivation fails leaves the sentinel title. -/
theorem auto_title_cleaning_spec_witness :
    clean_generated_title " Rozmowa o psach. " = clean_title_per_spec " Rozmowa o psach. " ∧
    generate_title_from_history [entry_u1, entry_a1] (fun _ => none) = none ∧
    (ChatSession.send_message fresh_session [] "hi" ⟨"hello", [entry_u1, entry_a1]⟩
      (fun _ => none) none 0).session.title = DEFAULT_TITLE := by
  have h := auto_title_cleaning_spec
  have hg := h.2.2.2.1 [entry_u1, entry_a1] (fun _ => none) (fun _ => rfl)
  exact ⟨h.1 " Rozmowa o psach. ", hg,
    h.2.2.1 fresh_session [] "hi" ⟨"hello", [entry_u1, entry_a1]⟩
      (fun _ => none) none 0 rfl hg⟩

/-- C6: whenever a session is active, `switch_to_session` attempts to save
it before attempting the load — for every injected save outcome the save
attempt precedes the load attempt in the event trace, and the load operates
on the post-save store. -/
theorem save_before_switch (m : SessionManager) (d : Disk) (saveErr : Option String)
    (mtime : Nat) (sp mn sid : String) (s : ChatSession) (hcur : m.current = some s) :
    (switch_to_session m d saveErr mtime sp mn sid).save_attempted = true ∧
    (switch_to_session m d saveErr mtime sp mn sid).previous_session_id =
      some s.session_id ∧
    (switch_to_session m d saveErr mtime sp mn sid).events =
      [.saveAttempt s.session_id, .loadAttempt sid] ∧
    (switch_to_session m d saveErr mtime sp mn sid).disk =
      (s.save_to_file d saveErr mtime).disk := by
  unfold switch_to_session
  rw [hcur]
  dsimp only
  cases hl : load_from_file (s.save_to_file d saveErr mtime).disk sid sp mn with
  | mk ns err =>
    cases ns <;> dsimp only <;> exact ⟨rfl, rfl, rfl, rfl⟩

/-- Witness for C6: with an active session and an absent target id, the
trace is exactly save-attempt then load-attempt. -/
theorem save_before_switch_witness :
    (switch_to_session ⟨some sample_session⟩ [] none 0 "You are Azor"
      "gemini-2.5-flash" "ghost").events =
      [.saveAttempt sample_session.session_id, .loadAttempt "ghost"] := by
  exact (save_before_switch ⟨some sample_session⟩ [] none 0 "You are Azor"
    "gemini-2.5-flash" "ghost" sample_session rfl).2.2.1

/-- C2 as stated is false on the code: take a state whose current session
(id `s1`) was never persisted, and switch to the id `s1` itself.  The id has
no persisted record at call time, yet the save-before-switch step writes
that very record, the load then succeeds, and `load_successful` comes back
`true` with no error — not `false` with a not-found error. -/
theorem switch_nonexistent_claim_counterexample :
    findFile ([] : Disk) (session_path "s1") = none ∧
    (switch_to_session ⟨some sample_session⟩ [] none 0 "You are Azor"
      "gemini-2.5-flash" "s1").load_successful = true ∧
    (switch_to_session ⟨some sample_session⟩ [] none 0 "You are Azor"
      "gemini-2.5-flash" "s1").load_error = none := by
  refine ⟨rfl, ?_, ?_⟩ <;> decide

/-- C2 amended: for a target id *different from the current session's id*
and with no persisted record, `switch_to_session` leaves the current
session unchanged, installs nothing, and returns `load_successful = false`
with the not-found error naming the id. -/
theorem switch_nonexistent_amended (m : SessionManager) (d : Disk)
    (saveErr : Option String) (mtime : Nat) (sp mn sid : String) (s : ChatSession)
    (hcur : m.current = some s) (hne : sid ≠ s.session_id)
    (habs : findFile d (session_path sid) = none) :
    (switch_to_session m d saveErr mtime sp mn sid).manager = m ∧
    (switch_to_session m d saveErr mtime sp mn sid).new_session = none ∧
    (switch_to_session m d saveErr mtime sp mn sid).load_successful = false ∧
    (switch_to_session m d saveErr mtime sp mn sid).load_error =
      some ("Session file not found: " ++ sid) := by
  have habs' : findFile ((s.save_to_file d saveErr mtime).disk) (session_path sid) = none := by
    cases saveErr with
    | some e => exact habs
    | none =>
      unfold ChatSession.save_to_file save_session_history
      dsimp only
      rw [findFile_writeFile_other]
      · exact habs
      · exact append_suffix_ne sid s.session_id ".json" hne
  unfold switch_to_session
  rw [hcur]
  dsimp only
  unfold load_from_file load_session_history
  rw [habs']
  dsimp only
  exact ⟨rfl, rfl, rfl, rfl⟩

/-- Witness for the amended C2 at concrete inputs: switching to the absent
id `ghost` fails with the not-found error and keeps the prior session
current. -/
theorem switch_nonexistent_amended_witness :
    (switch_to_session ⟨some sample_session⟩ [] none 0 "You are Azor"
      "gemini-2.5-flash" "ghost").load_successful = false ∧
    (switch_to_session ⟨some sample_session⟩ [] none 0 "You are Azor"
      "gemini-2.5-flash" "ghost").load_error = some "Session file not found: ghost" ∧
    (switch_to_session ⟨some sample_session⟩ [] none 0 "You are Azor"
      "gemini-2.5-flash" "ghost").manager = ⟨some sample_session⟩ := by
  have h := switch_nonexistent_amended ⟨some sample_session⟩ [] none 0 "You are Azor"
    "gemini-2.5-flash" "ghost" sample_session rfl (by decide) rfl
  exact ⟨h.2.2.1, h.2.2.2.trans (by decide), h.1⟩

/-- The event trace of one `send_message`: the auto-title branch is entered
exactly when the pre-call title is the sentinel and the synced history has
exactly 2 entries; the fire flag records whether derivation succeeded. -/
lemma send_message_events (s : ChatSession) (d : Disk) (text : String)
    (sr : SendResult) (tg : String → Option String) (saveErr : Option String)
    (mtime : Nat) :
    (ChatSession.send_message s d text sr tg saveErr mtime).events =
      if s.title = DEFAULT_TITLE ∧ sr.newHistory.length = 2 then
        [.autoTitleFire s.session_id
          (generate_title_from_history sr.newHistory tg).isSome,
         .walAppend s.session_id]
      else [.walAppend s.session_id] := by
  unfold ChatSession.send_message
  by_cases hcond : s.title = DEFAULT_TITLE ∧ sr.newHistory.length = 2
  · rw [if_pos hcond, if_pos hcond]
    cases hgen : generate_title_from_history sr.newHistory tg <;>
      simp [hgen]
  · rw [if_neg hcond, if_neg hcond]

/-- The title of a session never becomes the sentinel again: every operation
other than a rename to the sentinel preserves a non-sentinel title. -/
lemma step_session_title_ne_default (s : ChatSession) (d : Disk) (op : Op)
    (h : s.title ≠ DEFAULT_TITLE) (hop : op.renamesToDefault = false) :
    (step_session s d op).session.title ≠ DEFAULT_TITLE := by
  cases op with
  | send text sr tg se mt =>
    unfold step_session ChatSession.send_message
    dsimp only
    have hcond : ¬ (s.title = DEFAULT_TITLE ∧ sr.newHistory.length = 2) :=
      fun hc => h hc.1
    rw [if_neg hcond]
    exact h
  | pop se mt =>
    unfold step_session ChatSession.pop_last_exchange ChatSession.get_history
    dsimp only
    by_cases hl : s.history.length < 2
    · rw [if_pos hl]
      exact h
    · rw [if_neg hl]
      exact h
  | clear se mt => exact h
  | renameOp t se mt =>
    have ht : t ≠ DEFAULT_TITLE := by
      simpa [Op.renamesToDefault] using hop
    exact ht
  | saveOp se mt => exact h

/-- C1 is refuted by a concrete trace: on a fresh session the first
`send_message` completes an exchange and fires auto-title, the derivation
fails (title stays the sentinel), `pop_last_exchange` empties the history,
and the next `send_message` completes a new first exchange — auto-title
fires a second time for the same session. -/
theorem auto_title_refire_counterexample :
    (run_ops fresh_session [] cex_ops).events =
      [.autoTitleFire "s1" false, .walAppend "s1",
       .autoTitleFire "s1" false, .walAppend "s1"] ∧
    (run_ops fresh_session [] cex_ops).events.countP Event.isFire = 2 := by
  constructor <;> decide

/-- C1 amended: auto-title fires during `send_message` iff the title equals
the sentinel and the synced history has exactly 2 entries at completion (no
other operation ever fires it), and it never fires again while the title is
non-sentinel: from any state whose title differs from the sentinel — in
particular after a successful derivation of a non-sentinel title — no
sequence of operations avoiding an explicit rename back to the sentinel can
fire it.  (After a *failed* fire the title is still the sentinel and
truncating the history to 0 followed by a new first exchange re-fires it, as
the counterexample trace shows.) -/
theorem auto_title_fire_characterization :
    (∀ s d text sr (tg : String → Option String) saveErr mtime,
      (ChatSession.send_message s d text sr tg saveErr mtime).events.any
          Event.isFire = true ↔
        (s.title = DEFAULT_TITLE ∧ sr.newHistory.length = 2)) ∧
    (∀ s d op, op.isSend = false →
      (step_session s d op).events.any Event.isFire = false) ∧
    (∀ s d ops, s.title ≠ DEFAULT_TITLE →
      (∀ op ∈ ops, op.renamesToDefault = false) →
      (run_ops s d ops).events.any Event.isFire = false) := by
  refine ⟨?_, ?_, ?_⟩
  · intro s d text sr tg saveErr mtime
    rw [send_message_events]
    by_cases hcond : s.title = DEFAULT_TITLE ∧ sr.newHistory.length = 2
    · simp [hcond, Event.isFire]
    · simp [hcond, Event.isFire]
  · intro s d op hop
    cases op with
    | send text sr tg se mt => simp [Op.isSend] at hop
    | pop se mt => rfl
    | clear se mt => rfl
    | renameOp t se mt => rfl
    | saveOp se mt => rfl
  · intro s d ops
    induction ops generalizing s d with
    | nil => intro _ _; rfl
    | cons op rest ih =>
      intro hne hops
      have h1 : op.renamesToDefault = false := hops op (List.mem_cons_self op rest)
      have h2 : ∀ o ∈ rest, o.renamesToDefault = false :=
        fun o ho => hops o (List.mem_cons_of_mem op ho)
      have hstep : (step_session s d op).events.any Event.isFire = false := by
        cases op with
        | send text sr tg se mt =>
          unfold step_session
          dsimp only
          rw [send_message_events]
          have hcond : ¬ (s.title = DEFAULT_TITLE ∧ sr.newHistory.length = 2) :=
            fun hc => hne hc.1
          rw [if_neg hcond]
          rfl
        | pop se mt => rfl
        | clear se mt => rfl
        | renameOp t se mt => rfl
        | saveOp se mt => rfl
      have hrest := ih (step_session s d op).session (step_session s d op).disk
        (step_session_title_ne_default s d op hne h1) h2
      unfold run_ops
      dsimp only
      rw [List.any_append, hstep, hrest]
      rfl

/-- Witness for the amended C1 at concrete inputs: a fresh session whose
backend reports 2 entries fires; a session with a non-sentinel title never
fires over the three-operation trace. -/
theorem auto_title_fire_characterization_witness :
    (ChatSession.send_message fresh_session [] "hi" ⟨"hello", [entry_u1, entry_a1]⟩
      (fun _ => none) none 0).events.any Event.isFire = true ∧
    (run_ops sample_session [] cex_ops).events.any Event.isFire = false := by
  have h := auto_title_fire_characterization
  constructor
  · exact (h.1 fresh_session [] "hi" ⟨"hello", [entry_u1, entry_a1]⟩
      (fun _ => none) none 0).mpr ⟨rfl, rfl⟩
  · have hops : ∀ op ∈ cex_ops, op.renamesToDefault = false := by
      intro op hop
      simp only [cex_ops, cex_send1, cex_send2, List.mem_cons,
        List.not_mem_nil, or_false] at hop
      rcases hop with rfl | rfl | rfl <;> rfl
    exact h.2.2 sample_session [] cex_ops (by decide) hops
